import Mathlib

/-!
Verification of the data pipeline in `src/streamlit_app.py` (Lebanon Health
Infrastructure dashboard).

The script loads a CSV, renames columns, validates that the `Town` column and
the four resource-count columns exist, coerces those columns to numbers
(`pd.to_numeric(..., errors="coerce").fillna(0)`), aggregates per town
(`groupby("Town", dropna=False)[need].sum()` plus a derived `TOTAL` column),
optionally filters towns by a case-insensitive substring, and derives two
chart shapes: a long-form (melted) top-20 table with an explicit categorical
town ordering, and a top-N town-by-resource heatmap matrix.

This file is a shallow embedding of that pipeline: tables are lists of
records, a missing (NaN) town is `Option.none`, and a resource cell is
either a parsed number or a non-numeric value that `to_numeric` coerces to
NaN (then filled with 0). The pandas sorts that are stable (`groupby` key
ordering, `nlargest` with its default `keep="first"`) are modelled by a
stable insertion sort; line 89's `sort_values`, whose default quicksort is
not stable, is analysed through its implementation-independent contract
`isSortValuesDesc`, and line 90's `pd.Categorical` null-category
`ValueError` is modelled by `attachTownCategorical`.
-/

/-- A raw cell of one of the four resource-count columns: either a value that
`pd.to_numeric` parses to a number, or one it cannot parse (which
`errors="coerce"` turns into NaN, and `.fillna(0)` into 0). -/
inductive RawCell where
  | num (q : Int)
  | nonNumeric
  deriving DecidableEq

/-- A raw input row after column renaming: a possibly-missing town name and
the four resource cells (auxiliary columns are irrelevant to the pipeline). -/
structure RawRow where
  town : Option String
  hospitals : RawCell
  clinics : RawCell
  pharmacies : RawCell
  medical_centers : RawCell
  deriving DecidableEq

/-- The loaded CSV: its (already normalized and renamed) column names plus
its data rows. -/
structure RawFrame where
  cols : List String
  rows : List RawRow
  deriving DecidableEq

/-- `need = ["hospitals", "clinics", "pharmacies", "medical_centers"]`
(line 45 of the script). -/
def need : List String := ["hospitals", "clinics", "pharmacies", "medical_centers"]

/-- Line 46: `"Town" not in df.columns or any(c not in df.columns for c in need)`. -/
def missingColumns (cols : List String) : Bool :=
  !(cols.contains "Town") || need.any (fun c => !(cols.contains c))

/-- Lines 49-50: `pd.to_numeric(df[c], errors="coerce").fillna(0)` applied to
one cell: parsed numbers pass through, anything non-numeric becomes 0. -/
def coerceCell : RawCell → Int
  | .num q => q
  | .nonNumeric => 0

/-- A validated/coerced row: town plus the four numeric resource counts.
This is also the shape of the aggregated frame before `TOTAL` is added. -/
structure Row where
  town : Option String
  hospitals : Int
  clinics : Int
  pharmacies : Int
  medical_centers : Int
  deriving DecidableEq

/-- The per-row effect of the coercion loop at lines 49-50. -/
def coerceRow (r : RawRow) : Row :=
  { town := r.town
    hospitals := coerceCell r.hospitals
    clinics := coerceCell r.clinics
    pharmacies := coerceCell r.pharmacies
    medical_centers := coerceCell r.medical_centers }

/-- Column access on a raw row by canonical column name. -/
def RawRow.get (r : RawRow) : String → RawCell
  | "hospitals" => r.hospitals
  | "clinics" => r.clinics
  | "pharmacies" => r.pharmacies
  | "medical_centers" => r.medical_centers
  | _ => RawCell.nonNumeric

/-- Column access on a coerced row by canonical column name. -/
def Row.get (r : Row) : String → Int
  | "hospitals" => r.hospitals
  | "clinics" => r.clinics
  | "pharmacies" => r.pharmacies
  | "medical_centers" => r.medical_centers
  | _ => 0

/-- Lines 45-50 as one step: validate the required columns, then coerce; on
missing columns `st.error` + `st.stop()` halt the script, modelled as
`Except.error` (so nothing downstream is computed). -/
def loadAndValidate (f : RawFrame) : Except String (List Row) :=
  if missingColumns f.cols then
    Except.error "Missing required columns: Town and the resource columns."
  else
    Except.ok (f.rows.map coerceRow)

/-- Insert `a` into `l` before the first element `b` with `le a b`. -/
def insertLe {α : Type} (le : α → α → Bool) (a : α) : List α → List α
  | [] => [a]
  | b :: t => if le a b then a :: b :: t else b :: insertLe le a t

/-- Stable insertion sort: the model of the stable sorts in the script
(`groupby(sort=True)` key ordering and `nlargest`, which pandas keeps
index-stable under the default `keep="first"`): elements that compare equal
keep their input order. -/
def stableSort {α : Type} (le : α → α → Bool) : List α → List α
  | [] => []
  | a :: t => insertLe le a (stableSort le t)

/-- Lexicographic (code-point) comparison of strings as character lists —
Python's string ordering. -/
def charListLE : List Char → List Char → Bool
  | [], _ => true
  | _ :: _, [] => false
  | a :: s, b :: t => if a < b then true else if b < a then false else charListLE s t

/-- Ordering of group keys used by `groupby("Town", dropna=False)`: keys are
sorted ascending (pandas `sort=True` default) with the NaN group last. -/
def townLE : Option String → Option String → Bool
  | none, none => true
  | none, some _ => false
  | some _, none => true
  | some s, some t => charListLE s.data t.data

/-- The group keys of `df.groupby("Town", dropna=False)`: the distinct town
values, in sorted order (NaN last). -/
def groupTowns (rows : List Row) : List (Option String) :=
  stableSort townLE ((rows.map Row.town).dedup)

/-- Sum of one column over a list of rows. -/
def sumColumn (rows : List Row) (f : Row → Int) : Int := (rows.map f).sum

/-- Lines 53-57: `df.groupby("Town", dropna=False)[need].sum().reset_index()`
— one row per distinct town, with the four resource columns summed. -/
def aggNoTotal (rows : List Row) : List Row :=
  (groupTowns rows).map (fun t =>
    let g := rows.filter (fun r => r.town == t)
    { town := t
      hospitals := sumColumn g Row.hospitals
      clinics := sumColumn g Row.clinics
      pharmacies := sumColumn g Row.pharmacies
      medical_centers := sumColumn g Row.medical_centers })

/-- `r[need].sum(axis=1)`: the row-wise sum of the four resource columns
(used at line 58 for `agg["TOTAL"]` and again at line 89 for the re-sort). -/
def rowTotal (r : Row) : Int := r.hospitals + r.clinics + r.pharmacies + r.medical_centers

/-- A row of the aggregated table after line 58 added the `TOTAL` column. -/
structure AggRow where
  town : Option String
  hospitals : Int
  clinics : Int
  pharmacies : Int
  medical_centers : Int
  TOTAL : Int
  deriving DecidableEq

/-- Line 58: `agg["TOTAL"] = agg[need].sum(axis=1)`. -/
def addTotal (r : Row) : AggRow :=
  { town := r.town
    hospitals := r.hospitals
    clinics := r.clinics
    pharmacies := r.pharmacies
    medical_centers := r.medical_centers
    TOTAL := rowTotal r }

/-- Lines 53-58: the full per-town aggregate table `agg`. -/
def aggregate (rows : List Row) : List AggRow :=
  (aggNoTotal rows).map addTotal

/-- `drop(columns="TOTAL")` (lines 83 and 104). -/
def dropTOTAL (a : AggRow) : Row :=
  { town := a.town
    hospitals := a.hospitals
    clinics := a.clinics
    pharmacies := a.pharmacies
    medical_centers := a.medical_centers }

/-- Is `pat` a contiguous sublist of `hay`? (the substring test behind
`Series.str.contains` for a plain, non-regex pattern). -/
def containsSub (pat : List Char) : List Char → Bool
  | [] => pat.isEmpty
  | c :: t => pat.isPrefixOf (c :: t) || containsSub pat t

/-- Python's `str.strip()`: drop leading and trailing whitespace. -/
def pyStrip (s : String) : String :=
  ⟨(((s.data.dropWhile Char.isWhitespace).reverse.dropWhile Char.isWhitespace).reverse)⟩

/-- Python's `str.lower()` on a character list (ASCII case folding, the part
relevant to `case=False`). -/
def lowerChars (l : List Char) : List Char := l.map Char.toLower

/-- Line 77's per-row predicate:
`Town.str.contains(name_filter.strip(), case=False, na=False)` — a missing
town never matches (`na=False`), otherwise a case-insensitive substring test. -/
def townMatches (pat : String) (t : Option String) : Bool :=
  match t with
  | none => false
  | some s => containsSub (lowerChars pat.data) (lowerChars s.data)

/-- Lines 75-77: `agg_filtered = agg.copy()`; if `name_filter.strip()` is
non-empty, keep the rows whose town matches it. -/
def applyFilter (nameFilter : String) (l : List AggRow) : List AggRow :=
  if pyStrip nameFilter = "" then l
  else l.filter (fun r => townMatches (pyStrip nameFilter) r.town)

/-- The filtered aggregate `agg_filtered` as a function of the coerced input
rows and the sidebar filter text. -/
def aggFiltered (rows : List Row) (nameFilter : String) : List AggRow :=
  applyFilter nameFilter (aggregate rows)

/-- Descending-`TOTAL` comparison used by `nlargest(n, "TOTAL")`. -/
def totalDesc (a b : AggRow) : Bool := decide (b.TOTAL ≤ a.TOTAL)

/-- `agg_filtered.nlargest(n, "TOTAL")`: the first `n` rows in stable
descending-`TOTAL` order (pandas `nlargest` keeps earlier rows on ties). -/
def nlargestTOTAL (n : Nat) (l : List AggRow) : List AggRow :=
  (stableSort totalDesc l).take n

/-- Lines 82-83: `top_n = min(20, len(agg_filtered))`;
`top20 = agg_filtered.nlargest(top_n, "TOTAL").drop(columns="TOTAL")`. -/
def top20 (l : List AggRow) : List Row :=
  (nlargestTOTAL (min 20 l.length) l).map dropTOTAL

/-- Lines 60-65: the `pretty` dict. `Series.map(dict)` sends keys that are
absent from the dict to NaN, hence the `Option` result. -/
def pretty : String → Option String
  | "hospitals" => some "Hospitals"
  | "clinics" => some "Clinics"
  | "pharmacies" => some "Pharmacies"
  | "medical_centers" => some "Medical Centers"
  | _ => none

/-- One row of the melted (long-form) bar-chart table. `Resource` is an
`Option` because `Series.map` can produce NaN for unmapped labels. -/
structure LongRow where
  town : Option String
  Resource : Option String
  count : Int
  deriving DecidableEq

/-- Line 85: `top20.melt(id_vars="Town", value_vars=need, var_name="Resource",
value_name="count")` — pandas stacks variable by variable (column-major). -/
def melt (l : List Row) : List LongRow :=
  need.flatMap (fun v => l.map (fun r => { town := r.town, Resource := some v, count := r.get v }))

/-- Line 86: `long_top20["Resource"] = long_top20["Resource"].map(pretty)`. -/
def mapResourcePretty (l : List LongRow) : List LongRow :=
  l.map (fun r =>
    { r with Resource := match r.Resource with
                         | some v => pretty v
                         | none => none })

/-- Descending comparison on the recomputed row total (line 89's sort key). -/
def rowTotalDesc (a b : Row) : Bool := decide (rowTotal b ≤ rowTotal a)

/-- Line 89: `top20.assign(TOTAL=top20[need].sum(axis=1))
.sort_values("TOTAL", ascending=False)["Town"].tolist()`, rendered here with
a stable sort. This is only ONE admissible output: `sort_values` uses the
default `kind='quicksort'`, which pandas does not document as stable, so the
relative order of tied totals is implementation-defined. The guaranteed
contract of the call is `isSortValuesDesc`, and the line-89/90 analysis is
carried out against that contract; this function is used only where the tie
order is irrelevant (the state transcription, and the null-category test of
line 90, which is invariant under permutation of the order list). -/
def chartOrder (t20 : List Row) : List (Option String) :=
  (stableSort rowTotalDesc t20).map Row.town

/-- The bar-chart input: the long-form rows plus the `order` list computed
at line 89, which line 90 then attaches as an ordered categorical. -/
structure BarChart where
  rows : List LongRow
  townOrder : List (Option String)
  deriving DecidableEq

/-- Lines 82-89: the chart-1 tables derived from `agg_filtered` — the melted
rows of lines 85-86 and the order list of line 89 (stable-tie rendering; see
`chartOrder`). Line 90's categorical attachment, which can raise, is
`attachTownCategorical`. -/
def barChart (l : List AggRow) : BarChart :=
  let t20 := top20 l
  { rows := mapResourcePretty (melt t20)
    townOrder := chartOrder t20 }

/-- The contract of `sort_values("TOTAL", ascending=False)` at line 89 under
its default `kind='quicksort'`: the output is some rearrangement of the
input that is sorted by non-increasing recomputed total. Quicksort is not
documented stable, so nothing more is guaranteed about rows with equal
totals. -/
def isSortValuesDesc (input output : List Row) : Prop :=
  output.Perm input ∧ output.Pairwise (fun a b => rowTotalDesc a b = true)

/-- Line 90: `pd.Categorical(long_top20["Town"], categories=order,
ordered=True)` raises `ValueError: Categorical categories cannot be null`
when the category list contains a missing town; otherwise it attaches the
ordering to the long-form table. -/
def attachTownCategorical (bc : BarChart) : Except String BarChart :=
  if bc.townOrder.contains none then
    Except.error "Categorical categories cannot be null"
  else
    Except.ok bc

/-- Lines 104-105: `topN = agg_filtered.nlargest(min(n_towns, len(agg_filtered)),
"TOTAL").drop(columns="TOTAL")`; `mat = topN.set_index("Town")[need]` — one
matrix row (town index plus the four counts) per selected town. -/
def heatmap (nTowns : Nat) (l : List AggRow) : List (Option String × List Int) :=
  ((nlargestTOTAL (min nTowns l.length) l).map dropTOTAL).map
    (fun r => (r.town, [r.hospitals, r.clinics, r.pharmacies, r.medical_centers]))

/-- The display labels of the heatmap columns after `rename(columns=pretty)`. -/
def heatmapCols : List String := ["Hospitals", "Clinics", "Pharmacies", "Medical Centers"]

/-- The whole run: load + validate, aggregate, filter, build chart 1
(including line 90's categorical attachment, which can raise), then the
heatmap. A missing-columns failure yields `Except.error` before any chart
shape exists; a null selected town makes line 90 raise before the heatmap.
Whether line 90 raises does not depend on the tie order of line 89's sort,
since the null test is invariant under permutation of the order list. -/
def runApp (f : RawFrame) (nameFilter : String) (nTowns : Nat) :
    Except String (BarChart × List (Option String × List Int)) :=
  match loadAndValidate f with
  | Except.error e => Except.error e
  | Except.ok rows =>
      let fl := aggFiltered rows nameFilter
      match attachTownCategorical (barChart fl) with
      | Except.error e => Except.error e
      | Except.ok bc => Except.ok (bc, heatmap nTowns fl)

/-- The script's variables during the chart section (lines 75-105), for the
frame-effect claim: each script statement assigns exactly one of these. -/
structure ChartState where
  agg : List AggRow
  agg_filtered : List AggRow
  top20 : List Row
  long_top20 : List LongRow
  townOrderC : List (Option String)
  topN : List Row
  mat : List (Option String × List Int)

/-- Lines 75-105 as explicit state passing, one script statement per step:
the copy at line 75, the conditional filter at lines 76-77, `top20`,
`long_top20` (melt then in-place `Resource` remap), the order list of
line 89, and `topN`/`mat` for the heatmap. Line 90's categorical attachment
can raise (see `attachTownCategorical`), but raising performs no assignment,
so it is irrelevant to which variables the section writes. -/
def runCharts (nameFilter : String) (nTowns : Nat) (s : ChartState) : ChartState :=
  let s1 := { s with agg_filtered := s.agg }
  let s2 := if pyStrip nameFilter = "" then s1
            else { s1 with
                   agg_filtered := s1.agg_filtered.filter
                     (fun r => townMatches (pyStrip nameFilter) r.town) }
  let s3 := { s2 with top20 := (nlargestTOTAL (min 20 s2.agg_filtered.length) s2.agg_filtered).map dropTOTAL }
  let s4 := { s3 with long_top20 := melt s3.top20 }
  let s5 := { s4 with long_top20 := mapResourcePretty s4.long_top20 }
  let s6 := { s5 with townOrderC := chartOrder s5.top20 }
  let s7 := { s6 with topN := (nlargestTOTAL (min nTowns s6.agg_filtered.length) s6.agg_filtered).map dropTOTAL }
  { s7 with mat := s7.topN.map (fun r => (r.town, [r.hospitals, r.clinics, r.pharmacies, r.medical_centers])) }

/-- Is a raw cell non-negative whenever it parses? (unparseable cells are
vacuously fine, since they coerce to 0). -/
def cellNonneg : RawCell → Bool
  | .num q => decide (0 ≤ q)
  | .nonNumeric => true

/-! ## Properties of the stable sort -/

theorem insertLe_perm {α : Type} (le : α → α → Bool) (a : α) :
    ∀ l : List α, (insertLe le a l).Perm (a :: l)
  | [] => List.Perm.refl _
  | b :: t => by
    unfold insertLe
    by_cases h : le a b = true
    · rw [if_pos h]
    · rw [if_neg h]
      exact ((insertLe_perm le a t).cons b).trans (List.Perm.swap a b t)

theorem stableSort_perm {α : Type} (le : α → α → Bool) :
    ∀ l : List α, (stableSort le l).Perm l
  | [] => List.Perm.refl _
  | a :: t => by
    unfold stableSort
    exact (insertLe_perm le a (stableSort le t)).trans ((stableSort_perm le t).cons a)

theorem length_stableSort {α : Type} (le : α → α → Bool) (l : List α) :
    (stableSort le l).length = l.length :=
  (stableSort_perm le l).length_eq

theorem mem_stableSort {α : Type} {le : α → α → Bool} {l : List α} {x : α} :
    x ∈ stableSort le l ↔ x ∈ l :=
  (stableSort_perm le l).mem_iff

theorem pairwise_insertLe {α : Type} {le : α → α → Bool}
    (htot : ∀ x y, le x y = true ∨ le y x = true)
    (htrans : ∀ x y z, le x y = true → le y z = true → le x z = true)
    (a : α) : ∀ {l : List α}, l.Pairwise (fun x y => le x y = true) →
    (insertLe le a l).Pairwise (fun x y => le x y = true) := by
  intro l
  induction l with
  | nil => intro _; simp [insertLe]
  | cons b t ih =>
    intro hl
    rcases List.pairwise_cons.1 hl with ⟨hb, ht⟩
    unfold insertLe
    by_cases h : le a b = true
    · rw [if_pos h]
      refine List.pairwise_cons.2 ⟨?_, hl⟩
      intro x hx
      rcases List.mem_cons.1 hx with rfl | hxt
      · exact h
      · exact htrans a b x h (hb x hxt)
    · rw [if_neg h]
      refine List.pairwise_cons.2 ⟨?_, ih ht⟩
      intro x hx
      have hxmem : x ∈ a :: t := (insertLe_perm le a t).subset hx
      rcases List.mem_cons.1 hxmem with rfl | hxt
      · rcases htot x b with h' | h'
        · exact absurd h' h
        · exact h'
      · exact hb x hxt

theorem sorted_stableSort {α : Type} {le : α → α → Bool}
    (htot : ∀ x y, le x y = true ∨ le y x = true)
    (htrans : ∀ x y z, le x y = true → le y z = true → le x z = true) :
    ∀ l : List α, (stableSort le l).Pairwise (fun x y => le x y = true)
  | [] => List.Pairwise.nil
  | a :: t => by
    unfold stableSort
    exact pairwise_insertLe htot htrans a (sorted_stableSort htot htrans t)

theorem stableSort_of_sorted {α : Type} {le : α → α → Bool} :
    ∀ {l : List α}, l.Pairwise (fun x y => le x y = true) → stableSort le l = l := by
  intro l
  induction l with
  | nil => intro _; rfl
  | cons a t ih =>
    intro hl
    rcases List.pairwise_cons.1 hl with ⟨ha, ht⟩
    unfold stableSort
    rw [ih ht]
    cases t with
    | nil => rfl
    | cons b t2 => unfold insertLe; rw [if_pos (ha b (List.mem_cons_self b t2))]

/-! ## Basic facts about the aggregation -/

theorem groupTowns_nodup (rows : List Row) : (groupTowns rows).Nodup :=
  (stableSort_perm townLE ((rows.map Row.town).dedup)).symm.nodup
    (List.nodup_dedup (rows.map Row.town))

theorem mem_groupTowns {rows : List Row} {t : Option String} :
    t ∈ groupTowns rows ↔ t ∈ rows.map Row.town :=
  (stableSort_perm townLE _).mem_iff.trans (List.mem_dedup)

theorem map_town_aggregate (rows : List Row) :
    (aggregate rows).map AggRow.town = groupTowns rows := by
  simp only [aggregate, aggNoTotal, List.map_map]
  exact List.map_id _

theorem mem_aggFiltered_subset {rows : List Row} {s : String} {g : AggRow}
    (hg : g ∈ aggFiltered rows s) : g ∈ aggregate rows := by
  unfold aggFiltered applyFilter at hg
  by_cases h : pyStrip s = ""
  · rwa [if_pos h] at hg
  · rw [if_neg h] at hg
    exact (List.mem_filter.1 hg).1

theorem total_eq_rowTotal {rows : List Row} {g : AggRow} (hg : g ∈ aggregate rows) :
    rowTotal (dropTOTAL g) = g.TOTAL := by
  rcases List.mem_map.1 hg with ⟨r, _, rfl⟩
  rfl

/-- C1: for every input table, every row of the aggregated per-town table
satisfies TOTAL = hospitals + clinics + pharmacies + medical_centers; TOTAL
is computed (at line 58) from the four summed resource columns, never stored
independently. -/
theorem C1_total_invariant (rows : List Row) (g : AggRow) (hg : g ∈ aggregate rows) :
    g.TOTAL = g.hospitals + g.clinics + g.pharmacies + g.medical_centers := by
  rcases List.mem_map.1 hg with ⟨r, _, rfl⟩
  rfl

theorem C1_total_invariant_witness :
    (AggRow.mk (some "A") 1 2 4 0 7)
        ∈ aggregate [⟨some "A", 1, 2, 3, 0⟩, ⟨some "A", 0, 0, 1, 0⟩]
    ∧ (AggRow.mk (some "A") 1 2 4 0 7).TOTAL
        = (AggRow.mk (some "A") 1 2 4 0 7).hospitals
          + (AggRow.mk (some "A") 1 2 4 0 7).clinics
          + (AggRow.mk (some "A") 1 2 4 0 7).pharmacies
          + (AggRow.mk (some "A") 1 2 4 0 7).medical_centers :=
  ⟨by decide, C1_total_invariant [⟨some "A", 1, 2, 3, 0⟩, ⟨some "A", 0, 0, 1, 0⟩] _ (by decide)⟩

/-- C5: for every aggregate table, the number of towns selected for a chart
equals min(requested N, number of available rows): the bar chart requests 20
and the heatmap requests the slider value; with zero filtered rows the
heatmap matrix has zero rows. -/
theorem C5_topn_size (l : List AggRow) (m : Nat) :
    (top20 l).length = min 20 l.length ∧ (heatmap m l).length = min m l.length := by
  constructor <;>
    simp [top20, heatmap, nlargestTOTAL, length_stableSort, List.length_take]

/-- C8: the town-name filter is idempotent — applying it twice with the same
string equals applying it once — and the empty filter string is a no-op. -/
theorem C8_filter_idempotent (s : String) (l : List AggRow) :
    applyFilter s (applyFilter s l) = applyFilter s l ∧ applyFilter "" l = l := by
  constructor
  · by_cases h : pyStrip s = ""
    · simp [applyFilter, h]
    · simp [applyFilter, h, List.filter_filter]
  · have h0 : pyStrip "" = "" := by decide
    simp [applyFilter, h0]

/-- C9: computing the two chart shapes (lines 75-105) never assigns to `agg`:
after the whole chart section runs, the aggregate table is unchanged. -/
theorem C9_agg_unchanged (s : String) (n : Nat) (st : ChartState) :
    (runCharts s n st).agg = st.agg := by
  unfold runCharts
  by_cases h : pyStrip s = "" <;> simp [h]

/-- C10: for every filter string that is non-empty after stripping, aggregate
rows with a missing (null) Town are excluded from the filtered table, because
`str.contains(..., na=False)` treats null town names as non-matching. -/
theorem C10_null_excluded (rows : List Row) (s : String) (h : pyStrip s ≠ "") :
    ∀ g ∈ aggFiltered rows s, g.town ≠ none := by
  intro g hg
  unfold aggFiltered applyFilter at hg
  rw [if_neg h] at hg
  have hm := (List.mem_filter.1 hg).2
  intro hnone
  rw [hnone] at hm
  simp [townMatches] at hm

theorem C10_null_excluded_witness :
    pyStrip "a" ≠ "" ∧ (AggRow.mk (some "Ab") 1 0 0 0 1).town ≠ none :=
  ⟨by decide,
   C10_null_excluded [⟨none, 1, 0, 0, 0⟩, ⟨some "Ab", 1, 0, 0, 0⟩] "a" (by decide)
     ⟨some "Ab", 1, 0, 0, 0, 1⟩ (by decide)⟩

/-- If a raw cell is non-negative-or-unparseable, its coercion is non-negative. -/
theorem coerceCell_nonneg {c : RawCell} (h : cellNonneg c = true) : 0 ≤ coerceCell c := by
  cases c with
  | num q => simpa [cellNonneg, coerceCell] using h
  | nonNumeric => simp [coerceCell]

/-- The claim that the loaded columns are always non-negative is false: the
coercion at lines 49-50 keeps parsed numeric values unchanged, so a negative
input cell (e.g. `-1`) survives loading. -/
theorem C2_counterexample :
    ¬ ∀ rr : RawRow, 0 ≤ (coerceRow rr).hospitals := by
  intro h
  exact absurd
    (h ⟨some "A", RawCell.num (-1), RawCell.num 0, RawCell.num 0, RawCell.num 0⟩)
    (by decide)

/-- C2 (amended): after loading, each of the four resource-count columns is
numeric, obtained cell-wise by `coerceCell`; any cell that cannot be parsed
as numeric becomes 0 rather than raising; and the column value is
non-negative whenever the raw cell was non-negative-or-unparseable. -/
theorem C2_lenient_coercion (rr : RawRow) : ∀ c ∈ need,
    (coerceRow rr).get c = coerceCell (rr.get c)
    ∧ (rr.get c = RawCell.nonNumeric → (coerceRow rr).get c = 0)
    ∧ (cellNonneg (rr.get c) = true → 0 ≤ (coerceRow rr).get c) := by
  intro c hc
  have hcases : c = "hospitals" ∨ c = "clinics" ∨ c = "pharmacies" ∨ c = "medical_centers" := by
    simpa [need] using hc
  rcases hcases with rfl | rfl | rfl | rfl
  · exact ⟨rfl,
      fun h => show coerceCell rr.hospitals = 0 by
        rw [show rr.hospitals = RawCell.nonNumeric from h]; rfl,
      fun h => coerceCell_nonneg h⟩
  · exact ⟨rfl,
      fun h => show coerceCell rr.clinics = 0 by
        rw [show rr.clinics = RawCell.nonNumeric from h]; rfl,
      fun h => coerceCell_nonneg h⟩
  · exact ⟨rfl,
      fun h => show coerceCell rr.pharmacies = 0 by
        rw [show rr.pharmacies = RawCell.nonNumeric from h]; rfl,
      fun h => coerceCell_nonneg h⟩
  · exact ⟨rfl,
      fun h => show coerceCell rr.medical_centers = 0 by
        rw [show rr.medical_centers = RawCell.nonNumeric from h]; rfl,
      fun h => coerceCell_nonneg h⟩

theorem C2_lenient_coercion_witness :
    "hospitals" ∈ need
    ∧ ((coerceRow ⟨some "A", RawCell.nonNumeric, RawCell.num 3, RawCell.num 0, RawCell.num 0⟩).get "hospitals"
          = coerceCell ((RawRow.mk (some "A") RawCell.nonNumeric (RawCell.num 3) (RawCell.num 0) (RawCell.num 0)).get "hospitals")
        ∧ ((RawRow.mk (some "A") RawCell.nonNumeric (RawCell.num 3) (RawCell.num 0) (RawCell.num 0)).get "hospitals" = RawCell.nonNumeric →
            (coerceRow ⟨some "A", RawCell.nonNumeric, RawCell.num 3, RawCell.num 0, RawCell.num 0⟩).get "hospitals" = 0)
        ∧ (cellNonneg ((RawRow.mk (some "A") RawCell.nonNumeric (RawCell.num 3) (RawCell.num 0) (RawCell.num 0)).get "hospitals") = true →
            0 ≤ (coerceRow ⟨some "A", RawCell.nonNumeric, RawCell.num 3, RawCell.num 0, RawCell.num 0⟩).get "hospitals")) :=
  ⟨by decide,
   C2_lenient_coercion ⟨some "A", RawCell.nonNumeric, RawCell.num 3, RawCell.num 0, RawCell.num 0⟩
     "hospitals" (by decide)⟩

/-- C3: if, after normalization and renaming, the Town column or any of the
four resource columns is absent, loading fails with the missing-columns error
and the whole run produces only that error — no aggregate and no chart shape. -/
theorem C3_missing_columns (f : RawFrame) (s : String) (m : Nat)
    (h : missingColumns f.cols = true) :
    loadAndValidate f = Except.error "Missing required columns: Town and the resource columns."
    ∧ runApp f s m = Except.error "Missing required columns: Town and the resource columns." := by
  have h1 : loadAndValidate f
      = Except.error "Missing required columns: Town and the resource columns." := by
    simp [loadAndValidate, h]
  exact ⟨h1, by simp [runApp, h1]⟩

theorem C3_missing_columns_witness :
    missingColumns (RawFrame.mk ["Town"] []).cols = true
    ∧ (loadAndValidate ⟨["Town"], []⟩
          = Except.error "Missing required columns: Town and the resource columns."
        ∧ runApp ⟨["Town"], []⟩ "" 5
          = Except.error "Missing required columns: Town and the resource columns.") :=
  ⟨by decide, C3_missing_columns ⟨["Town"], []⟩ "" 5 (by decide)⟩

theorem sum_indicator_eq_one (x : Option String) :
    ∀ {keys : List (Option String)}, keys.Nodup → x ∈ keys →
      (keys.map (fun t => if x == t then (1 : Nat) else 0)).sum = 1 := by
  intro keys
  induction keys with
  | nil => intro _ hm; exact absurd hm (List.not_mem_nil x)
  | cons k ks ih =>
    intro hn hm
    have hk : k ∉ ks := (List.nodup_cons.1 hn).1
    simp only [List.map_cons, List.sum_cons]
    rcases List.mem_cons.1 hm with rfl | hx
    · have hzero : (ks.map (fun t => if x == t then (1 : Nat) else 0)).sum = 0 := by
        apply List.sum_eq_zero
        intro y hy
        rcases List.mem_map.1 hy with ⟨t, ht, rfl⟩
        have hne : ¬ ((x == t) = true) := by
          intro hcontra
          exact hk ((eq_of_beq hcontra) ▸ ht)
        rw [if_neg hne]
      rw [if_pos (beq_self_eq_true x), hzero]
    · have hne : ¬ ((x == k) = true) := by
        intro hcontra
        exact hk ((eq_of_beq hcontra) ▸ hx)
      rw [if_neg hne, ih (List.nodup_cons.1 hn).2 hx]

theorem countP_eq_one_of_nodup (t : Option String) :
    ∀ {keys : List (Option String)}, keys.Nodup → t ∈ keys →
      keys.countP (fun k => k == t) = 1 := by
  intro keys
  induction keys with
  | nil => intro _ hm; exact absurd hm (List.not_mem_nil t)
  | cons k ks ih =>
    intro hn hm
    have hk : k ∉ ks := (List.nodup_cons.1 hn).1
    rw [List.countP_cons]
    rcases List.mem_cons.1 hm with rfl | hx
    · have hzero : ks.countP (fun q => q == t) = 0 := by
        rw [List.countP_eq_zero]
        intro a ha hcontra
        exact hk ((eq_of_beq hcontra) ▸ ha)
      rw [hzero, if_pos (beq_self_eq_true t)]
    · have hne : ¬ ((k == t) = true) := by
        intro hcontra
        exact hk ((eq_of_beq hcontra).symm ▸ hx)
      rw [if_neg hne, ih (List.nodup_cons.1 hn).2 hx]

theorem sum_countP_eq_length {keys : List (Option String)} (hn : keys.Nodup) :
    ∀ {rows : List Row}, (∀ r ∈ rows, r.town ∈ keys) →
      (keys.map (fun t => rows.countP (fun r => r.town == t))).sum = rows.length := by
  intro rows
  induction rows with
  | nil => intro _; simp
  | cons r rs ih =>
    intro hc
    have hr : r.town ∈ keys := hc r (List.mem_cons_self r rs)
    have hc2 : ∀ x ∈ rs, Row.town x ∈ keys := fun x hx => hc x (List.mem_cons_of_mem r hx)
    simp only [List.countP_cons]
    rw [List.sum_map_add, ih hc2, sum_indicator_eq_one r.town hn hr]
    simp

/-- C4: grouping by Town is a partition of the input rows — the per-group
record counts sum to the total record count, and every distinct Town value
(including the missing-Town group, which `dropna=False` keeps) appears in
exactly one aggregate row. -/
theorem C4_partition (rows : List Row) :
    ((aggregate rows).map (fun g => rows.countP (fun r => r.town == g.town))).sum = rows.length
    ∧ ∀ t, t ∈ rows.map Row.town →
        (aggregate rows).countP (fun g => g.town == t) = 1 := by
  constructor
  · have hmap : (aggregate rows).map (fun g => rows.countP (fun r => r.town == g.town))
        = (groupTowns rows).map (fun t => rows.countP (fun r => r.town == t)) := by
      simp only [aggregate, aggNoTotal, List.map_map]
      rfl
    rw [hmap]
    exact sum_countP_eq_length (groupTowns_nodup rows)
      (fun r hr => mem_groupTowns.2 (List.mem_map_of_mem Row.town hr))
  · intro t ht
    have h1 : (aggregate rows).countP (fun g => g.town == t)
        = (groupTowns rows).countP (fun k => k == t) := by
      simp only [aggregate, aggNoTotal, List.map_map, List.countP_map]
      rfl
    rw [h1]
    exact countP_eq_one_of_nodup t (groupTowns_nodup rows) (mem_groupTowns.2 ht)

theorem C4_partition_witness :
    none ∈ ([⟨some "A", 1, 2, 3, 0⟩, ⟨none, 0, 0, 1, 0⟩, ⟨some "A", 0, 0, 1, 0⟩] : List Row).map Row.town
    ∧ (aggregate [⟨some "A", 1, 2, 3, 0⟩, ⟨none, 0, 0, 1, 0⟩, ⟨some "A", 0, 0, 1, 0⟩]).countP
        (fun g => g.town == none) = 1 :=
  ⟨by decide,
   (C4_partition [⟨some "A", 1, 2, 3, 0⟩, ⟨none, 0, 0, 1, 0⟩, ⟨some "A", 0, 0, 1, 0⟩]).2
     none (by decide)⟩

theorem totalDesc_total : ∀ a b : AggRow, totalDesc a b = true ∨ totalDesc b a = true := by
  intro a b
  unfold totalDesc
  rcases le_total b.TOTAL a.TOTAL with h | h
  · exact Or.inl (decide_eq_true h)
  · exact Or.inr (decide_eq_true h)

theorem totalDesc_trans :
    ∀ a b c : AggRow, totalDesc a b = true → totalDesc b c = true → totalDesc a c = true := by
  intro a b c hab hbc
  unfold totalDesc at *
  exact decide_eq_true (le_trans (of_decide_eq_true hbc) (of_decide_eq_true hab))

/-- The `nlargest` selection (with `TOTAL` dropped) is sorted by
non-increasing recomputed row total. -/
theorem top20_pairwise (rows : List Row) (s : String) :
    (top20 (aggFiltered rows s)).Pairwise (fun x y => rowTotalDesc x y = true) := by
  have hinv : ∀ a ∈ aggFiltered rows s, rowTotal (dropTOTAL a) = a.TOTAL :=
    fun a ha => total_eq_rowTotal (mem_aggFiltered_subset ha)
  have hsorted : (stableSort totalDesc (aggFiltered rows s)).Pairwise
      (fun a b => totalDesc a b = true) :=
    sorted_stableSort totalDesc_total totalDesc_trans (aggFiltered rows s)
  have htake : ((stableSort totalDesc (aggFiltered rows s)).take
        (min 20 (aggFiltered rows s).length)).Pairwise (fun a b => totalDesc a b = true) :=
    List.Pairwise.sublist (List.take_sublist _ _) hsorted
  have hmem : ∀ a ∈ (stableSort totalDesc (aggFiltered rows s)).take
        (min 20 (aggFiltered rows s).length), a ∈ aggFiltered rows s :=
    fun a ha => (stableSort_perm totalDesc _).mem_iff.1 ((List.take_sublist _ _).subset ha)
  unfold top20 nlargestTOTAL
  rw [List.pairwise_map]
  refine htake.imp_of_mem ?_
  intro a b ha hb hab
  unfold rowTotalDesc
  rw [hinv a (hmem a ha), hinv b (hmem b hb)]
  exact hab

/-- Two lists of rows that are permutations of each other, both sorted by
non-increasing total, agree whenever the totals are pairwise distinct. -/
theorem eq_of_perm_of_pairwise_desc {l₁ l₂ : List Row} (hp : l₁.Perm l₂)
    (h₁ : l₁.Pairwise (fun a b => rowTotalDesc a b = true))
    (h₂ : l₂.Pairwise (fun a b => rowTotalDesc a b = true))
    (hnd : (l₂.map rowTotal).Nodup) : l₁ = l₂ := by
  haveI : IsAntisymm Row (fun a b => rowTotal b < rowTotal a) :=
    ⟨fun a b hab hba => absurd (lt_trans hab hba) (lt_irrefl _)⟩
  have hnd₁ : (l₁.map rowTotal).Nodup := ((hp.map rowTotal).symm).nodup hnd
  have hne₁ : l₁.Pairwise (fun a b => rowTotal a ≠ rowTotal b) := List.pairwise_map.1 hnd₁
  have hne₂ : l₂.Pairwise (fun a b => rowTotal a ≠ rowTotal b) := List.pairwise_map.1 hnd
  have hs₁ : l₁.Pairwise (fun a b => rowTotal b < rowTotal a) :=
    (h₁.and hne₁).imp
      (fun hab => lt_of_le_of_ne (of_decide_eq_true hab.1) (fun he => hab.2 he.symm))
  have hs₂ : l₂.Pairwise (fun a b => rowTotal b < rowTotal a) :=
    (h₂.and hne₂).imp
      (fun hab => lt_of_le_of_ne (of_decide_eq_true hab.1) (fun he => hab.2 he.symm))
  exact List.eq_of_perm_of_sorted hp hs₁ hs₂

/-- The original C6 claim fails on the code: (i) when the selected towns
include the null-Town group, line 90 raises the Categorical-null ValueError
instead of attaching any ordering; (ii) for two towns tied on TOTAL, the
contract of line 89's (non-stable) quicksort also admits the swapped
arrangement, whose town list differs from the stable descending order. -/
theorem C6_chart_order_counterexample :
    runApp ⟨["Town", "hospitals", "clinics", "pharmacies", "medical_centers"],
        [⟨none, RawCell.num 1, RawCell.num 0, RawCell.num 0, RawCell.num 0⟩]⟩ "" 10
      = Except.error "Categorical categories cannot be null"
    ∧ isSortValuesDesc
        (top20 (aggFiltered [⟨some "A", 1, 0, 0, 0⟩, ⟨some "B", 1, 0, 0, 0⟩] ""))
        [⟨some "B", 1, 0, 0, 0⟩, ⟨some "A", 1, 0, 0, 0⟩]
    ∧ ([⟨some "B", 1, 0, 0, 0⟩, ⟨some "A", 1, 0, 0, 0⟩] : List Row).map Row.town
        ≠ (top20 (aggFiltered [⟨some "A", 1, 0, 0, 0⟩, ⟨some "B", 1, 0, 0, 0⟩] "")).map
            Row.town :=
  ⟨rfl, by constructor <;> decide, by decide⟩

/-- C6 (amended): for every output admitted by line 89's sort contract, the
order list is a permutation of the selected towns in non-increasing
recomputed-total order; whenever the selected totals are pairwise distinct it
is exactly the stable descending-TOTAL `nlargest` order (ties are the only
implementation-defined part); and line 90 raises its null-category error for
that order list precisely when a selected town is null — independently of
the tie order. -/
theorem C6_chart_order_amended (rows : List Row) (s : String) (sorted : List Row)
    (h : isSortValuesDesc (top20 (aggFiltered rows s)) sorted) :
    (sorted.map Row.town).Perm ((top20 (aggFiltered rows s)).map Row.town)
    ∧ (((top20 (aggFiltered rows s)).map rowTotal).Nodup →
        sorted.map Row.town
          = (nlargestTOTAL (min 20 (aggFiltered rows s).length) (aggFiltered rows s)).map
              AggRow.town)
    ∧ (attachTownCategorical
          { rows := mapResourcePretty (melt (top20 (aggFiltered rows s)))
            townOrder := sorted.map Row.town }
        = Except.error "Categorical categories cannot be null"
       ↔ none ∈ (top20 (aggFiltered rows s)).map Row.town) := by
  obtain ⟨hperm, hpair⟩ := h
  refine ⟨hperm.map Row.town, ?_, ?_⟩
  · intro hnd
    have hsorted_eq : sorted = top20 (aggFiltered rows s) :=
      eq_of_perm_of_pairwise_desc hperm hpair (top20_pairwise rows s) hnd
    rw [hsorted_eq]
    unfold top20
    rw [List.map_map]
    rfl
  · have hmem : (none ∈ sorted.map Row.town)
        ↔ none ∈ (top20 (aggFiltered rows s)).map Row.town :=
      (hperm.map Row.town).mem_iff
    unfold attachTownCategorical
    by_cases hn : none ∈ sorted.map Row.town
    · have hc : (sorted.map Row.town).contains none = true := List.elem_iff.2 hn
      simp only [hc, if_true]
      exact ⟨fun _ => hmem.1 hn, fun _ => trivial⟩
    · have hc : (sorted.map Row.town).contains none = false :=
        Bool.eq_false_iff.2 (fun ht => hn (List.elem_iff.1 ht))
      simp only [hc, if_false]
      constructor
      · intro hcontra
        exact Except.noConfusion hcontra
      · intro hm2
        exact absurd (hmem.2 hm2) hn

theorem C6_chart_order_amended_witness :
    isSortValuesDesc (top20 (aggFiltered [⟨some "A", 2, 0, 0, 0⟩, ⟨some "B", 1, 0, 0, 0⟩] ""))
        [⟨some "A", 2, 0, 0, 0⟩, ⟨some "B", 1, 0, 0, 0⟩]
    ∧ ((([⟨some "A", 2, 0, 0, 0⟩, ⟨some "B", 1, 0, 0, 0⟩] : List Row).map Row.town).Perm
          ((top20 (aggFiltered [⟨some "A", 2, 0, 0, 0⟩, ⟨some "B", 1, 0, 0, 0⟩] "")).map
            Row.town)
      ∧ (((top20 (aggFiltered [⟨some "A", 2, 0, 0, 0⟩, ⟨some "B", 1, 0, 0, 0⟩] "")).map
            rowTotal).Nodup →
          ([⟨some "A", 2, 0, 0, 0⟩, ⟨some "B", 1, 0, 0, 0⟩] : List Row).map Row.town
            = (nlargestTOTAL
                (min 20 (aggFiltered [⟨some "A", 2, 0, 0, 0⟩, ⟨some "B", 1, 0, 0, 0⟩] "").length)
                (aggFiltered [⟨some "A", 2, 0, 0, 0⟩, ⟨some "B", 1, 0, 0, 0⟩] "")).map
                AggRow.town)
      ∧ (attachTownCategorical
            { rows := mapResourcePretty
                (melt (top20 (aggFiltered [⟨some "A", 2, 0, 0, 0⟩, ⟨some "B", 1, 0, 0, 0⟩] "")))
              townOrder := ([⟨some "A", 2, 0, 0, 0⟩, ⟨some "B", 1, 0, 0, 0⟩] : List Row).map
                Row.town }
          = Except.error "Categorical categories cannot be null"
         ↔ none ∈ (top20 (aggFiltered [⟨some "A", 2, 0, 0, 0⟩, ⟨some "B", 1, 0, 0, 0⟩] "")).map
              Row.town)) :=
  ⟨⟨by decide, by decide⟩,
   C6_chart_order_amended [⟨some "A", 2, 0, 0, 0⟩, ⟨some "B", 1, 0, 0, 0⟩] ""
     [⟨some "A", 2, 0, 0, 0⟩, ⟨some "B", 1, 0, 0, 0⟩] ⟨by decide, by decide⟩⟩

theorem nodup_town_top20 (rows : List Row) (s : String) :
    ((top20 (aggFiltered rows s)).map Row.town).Nodup := by
  have h1 : ((aggregate rows).map AggRow.town).Nodup := by
    rw [map_town_aggregate]
    exact groupTowns_nodup rows
  have h2 : ((aggFiltered rows s).map AggRow.town).Nodup := by
    unfold aggFiltered applyFilter
    by_cases h : pyStrip s = ""
    · rwa [if_pos h]
    · rw [if_neg h]
      exact (List.Sublist.map AggRow.town (List.filter_sublist _)).nodup h1
  have h3 : ((stableSort totalDesc (aggFiltered rows s)).map AggRow.town).Nodup :=
    (((stableSort_perm totalDesc (aggFiltered rows s)).map AggRow.town).symm).nodup h2
  have h4 : (((stableSort totalDesc (aggFiltered rows s)).take
        (min 20 (aggFiltered rows s).length)).map AggRow.town).Nodup := by
    rw [List.map_take]
    exact (List.take_sublist _ _).nodup h3
  unfold top20 nlargestTOTAL
  rw [List.map_map]
  exact h4

theorem disjoint_pair_maps {p q : Option String} (hpq : p ≠ q) (l : List Row) :
    List.Disjoint (l.map (fun r => (r.town, p))) (l.map (fun r => (r.town, q))) := by
  intro x hx hy
  rcases List.mem_map.1 hx with ⟨r, _, rfl⟩
  rcases List.mem_map.1 hy with ⟨r2, _, h2⟩
  exact hpq ((congrArg Prod.snd h2).symm)

/-- C7: the long-form bar-chart table has exactly 4 rows per selected town —
one per (Town, Resource) pair, with no duplicate pairs — and every resource
label is one of the four display names mapped from the canonical keys. -/
theorem C7_long_shape (rows : List Row) (s : String) :
    ((barChart (aggFiltered rows s)).rows).length = (top20 (aggFiltered rows s)).length * 4
    ∧ (((barChart (aggFiltered rows s)).rows).map (fun r => (r.town, r.Resource))).Nodup
    ∧ ∀ lr ∈ (barChart (aggFiltered rows s)).rows,
        lr.Resource ∈ [some "Hospitals", some "Clinics", some "Pharmacies", some "Medical Centers"] := by
  refine ⟨?_, ?_, ?_⟩
  · simp [barChart, mapResourcePretty, melt, need]
    omega
  · have hpairs : ((barChart (aggFiltered rows s)).rows).map (fun r => (r.town, r.Resource))
        = need.flatMap (fun v =>
            (top20 (aggFiltered rows s)).map (fun r => (r.town, pretty v))) := by
      simp only [barChart, mapResourcePretty, melt, List.map_flatMap, List.map_map]
      rfl
    rw [hpairs]
    refine (List.nodup_flatMap).2 ⟨?_, ?_⟩
    · intro v _
      have hinj : Function.Injective (fun t : Option String => (t, pretty v)) := by
        intro a b hab
        exact congrArg Prod.fst hab
      have h5 := List.Nodup.map hinj (nodup_town_top20 rows s)
      rw [List.map_map] at h5
      exact h5
    · unfold need
      refine List.Pairwise.cons ?_ (List.Pairwise.cons ?_ (List.Pairwise.cons ?_
        (List.Pairwise.cons ?_ List.Pairwise.nil))) <;>
      · intro v hv
        fin_cases hv <;> exact disjoint_pair_maps (by decide) _
  · intro lr hlr
    simp only [barChart, mapResourcePretty, List.mem_map] at hlr
    rcases hlr with ⟨lr0, h0, rfl⟩
    simp only [melt, List.mem_flatMap, List.mem_map] at h0
    rcases h0 with ⟨v, hv, r, _, rfl⟩
    rcases (show v = "hospitals" ∨ v = "clinics" ∨ v = "pharmacies" ∨ v = "medical_centers"
      by simpa [need] using hv) with rfl | rfl | rfl | rfl <;> simp [pretty]

theorem C7_long_shape_witness :
    (LongRow.mk (some "A") (some "Hospitals") 1)
        ∈ (barChart (aggFiltered [⟨some "A", 1, 2, 3, 0⟩] "")).rows
    ∧ (LongRow.mk (some "A") (some "Hospitals") 1).Resource
        ∈ [some "Hospitals", some "Clinics", some "Pharmacies", some "Medical Centers"] :=
  ⟨by decide,
   (C7_long_shape [⟨some "A", 1, 2, 3, 0⟩] "").2.2 ⟨some "A", some "Hospitals", 1⟩ (by decide)⟩
